import Mathlib

/-!
Verification of the serial-port configuration core (`src/lib.rs`).

The crate is a typed wrapper over POSIX terminal control for serial
devices.  `src/lib.rs` holds the `SerialPort` handle: getters and setters
for baud rate, data bits, stop bits, parity, flow control and blocking
mode, each decoding from / encoding into a cached `Termios` control
structure and talking to the kernel through `tcgetattr` / `tcsetattr`.

The crate's `termios` bridge module (struct layout, platform constants,
syscall declarations) is not present under `src/`; following the spec's
description of that bridge, it is modelled below with the standard Linux
constant table (the claims cite the `target_os = "linux"` variants of the
platform-conditional items).  Syscall outcomes are passed in explicitly:
a fetch is an `Except IoError Termios` argument, a push-back is a
`Termios → Except IoError Unit` argument, so theorems quantify over every
possible kernel response.  A Rust `panic!` is modelled as the `fatal`
constructor of `GetResult`, kept distinct from the ordinary error
constructor `err`.
-/

namespace Serial

/-- System-level error carrying an errno-style code; models `std::io::IoError`
as produced by `IoError::last_error()`. -/
structure IoError where
  code : Nat
deriving DecidableEq, Repr

/-- Outcome of a getter call: an ordinary value, a system error surfaced from
the fetch syscall, or an unrecoverable escalation (a Rust `panic!`, recording
the unrecognized raw field value).  `fatal` is deliberately a separate
constructor from `err`: a panic is not a recoverable error result. -/
inductive GetResult (α : Type) where
  | ok (val : α)
  | err (e : IoError)
  | fatal (unrecognized : Nat)
deriving DecidableEq, Repr

/-- Modelled from the spec: the control structure declared by the missing
`termios` bridge module — four bit-field groups, an array of `NCCS = 32`
per-function control characters, and two raw speed fields (Linux layout,
where speeds are separate `u32` fields).  Flag words are `u32`; they are
modelled as `Nat` with masking made explicit where complement is taken. -/
structure Termios where
  c_iflag : Nat
  c_oflag : Nat
  c_cflag : Nat
  c_lflag : Nat
  c_cc : Fin 32 → Nat
  c_ispeed : Nat
  c_ospeed : Nat

/-- Modelled from the spec: hardware (RTS/CTS) flow-control bit in the
control flags (Linux value of the missing `termios::CRTSCTS`). -/
def CRTSCTS : Nat := 0x80000000

/-- Modelled from the spec: software flow-control bit in the input flags
(Linux `termios::IXON`). -/
def IXON : Nat := 0x400

/-- Modelled from the spec: software flow-control bit in the input flags
(Linux `termios::IXOFF`). -/
def IXOFF : Nat := 0x1000

/-- Modelled from the spec: software flow-control bit in the input flags
(Linux `termios::IXANY`). -/
def IXANY : Nat := 0x800

/-- Modelled from the spec: parity-enable bit in the control flags
(Linux `termios::PARENB`). -/
def PARENB : Nat := 0x100

/-- Modelled from the spec: odd-parity bit in the control flags
(Linux `termios::PARODD`). -/
def PARODD : Nat := 0x200

/-- Modelled from the spec: two-stop-bits bit in the control flags
(Linux `termios::CSTOPB`). -/
def CSTOPB : Nat := 0x40

/-- Modelled from the spec: mask of the 2-bit character-size field within the
control flags (Linux `termios::CSIZE`). -/
def CSIZE : Nat := 0x30

/-- Modelled from the spec: character-size field value for 5 data bits
(Linux `termios::CS5`). -/
def CS5 : Nat := 0x00

/-- Modelled from the spec: character-size field value for 6 data bits
(Linux `termios::CS6`). -/
def CS6 : Nat := 0x10

/-- Modelled from the spec: character-size field value for 7 data bits
(Linux `termios::CS7`). -/
def CS7 : Nat := 0x20

/-- Modelled from the spec: character-size field value for 8 data bits
(Linux `termios::CS8`). -/
def CS8 : Nat := 0x30

/-- Modelled from the spec: control-character slot holding the inter-byte
read timeout in deciseconds (Linux `termios::VTIME`). -/
def VTIME : Fin 32 := 5

/-- Modelled from the spec: control-character slot holding the minimum byte
count before a read returns (Linux `termios::VMIN`). -/
def VMIN : Fin 32 := 6

/-- Bitwise complement of a `u32` mask, as Rust's `!` on `u32`: exclusive or
against the all-ones 32-bit word. -/
def compl32 (x : Nat) : Nat := (2 ^ 32 - 1) ^^^ x

/-- Blocking mode: the device blocks until `bytes` are received, and for at
least `deciseconds` after each read call (`BlockingMode` in `src/lib.rs`;
both fields are `u8`). -/
structure BlockingMode where
  bytes : Nat
  deciseconds : Nat
deriving DecidableEq, Repr

/-- Serial-port handle: the owned descriptor and the cached control
structure (`SerialPort` in `src/lib.rs`; the RAII `FileDesc` wrapper around
the same descriptor is omitted, it carries no configuration state). -/
structure SerialPort where
  fd : Int
  termios : Termios

/-- Requested access mode for `open` (`std::io::FileAccess`). -/
inductive FileAccess where
  | Read
  | ReadWrite
  | Write
deriving DecidableEq, Repr

/-- Direction selector for a baud-rate change (`Direction` in `src/lib.rs`). -/
inductive Direction where
  | BothDirections
  | Input
  | Output
deriving DecidableEq, Repr

/-- Flow-control enumeration (`FlowControl` in `src/lib.rs`). -/
inductive FlowControl where
  | HardwareControl
  | NoFlowControl
  | SoftwareControl
deriving DecidableEq, Repr

/-- Parity enumeration (`Parity` in `src/lib.rs`). -/
inductive Parity where
  | EvenParity
  | NoParity
  | OddParity
deriving DecidableEq, Repr

/-- Stop-bits enumeration (`StopBits` in `src/lib.rs`). -/
inductive StopBits where
  | Stop1
  | Stop2
deriving DecidableEq, Repr

/-- Data-bits enumeration (`DataBits` in `src/lib.rs`, Linux variant); each
constructor carries the discriminant `termios::CS5 .. termios::CS8`. -/
inductive DataBits where
  | Data5
  | Data6
  | Data7
  | Data8
deriving DecidableEq, Repr

/-- Discriminant of a `DataBits` value (the `repr(u32)` value from
`src/lib.rs`: `Data5 = CS5`, ..., `Data8 = CS8`). -/
def DataBits.toU32 : DataBits → Nat
  | .Data5 => CS5
  | .Data6 => CS6
  | .Data7 => CS7
  | .Data8 => CS8

/-- Semantics of the derived `FromPrimitive::from_u32` for `DataBits`:
`some` exactly on the four discriminants. -/
def DataBits.fromU32 : Nat → Option DataBits
  | 0x00 => some .Data5
  | 0x10 => some .Data6
  | 0x20 => some .Data7
  | 0x30 => some .Data8
  | _ => none

/-- Baud-rate enumeration (`BaudRate` in `src/lib.rs`, Linux variant); each
constructor carries a Linux `termios::B*` speed code as discriminant. -/
inductive BaudRate where
  | B0
  | B50
  | B75
  | B110
  | B134
  | B150
  | B200
  | B300
  | B600
  | B1K2
  | B1K8
  | B2K4
  | B4K8
  | B9K6
  | B19K2
  | B38K4
  | B57K6
  | B115K2
  | B230K4
  | B460K8
  | B500K
  | B576K
  | B921K6
  | B1M
  | B1M152
  | B1M5
  | B2M
  | B2M5
  | B3M
  | B3M5
  | B4M
deriving DecidableEq, Repr

/-- Discriminant of a `BaudRate` value: the standard Linux `termios::B*`
speed codes (the `termios` module's constant table is absent from `src/`;
values modelled from the spec's platform constant table). -/
def BaudRate.toU32 : BaudRate → Nat
  | .B0 => 0
  | .B50 => 1
  | .B75 => 2
  | .B110 => 3
  | .B134 => 4
  | .B150 => 5
  | .B200 => 6
  | .B300 => 7
  | .B600 => 8
  | .B1K2 => 9
  | .B1K8 => 10
  | .B2K4 => 11
  | .B4K8 => 12
  | .B9K6 => 13
  | .B19K2 => 14
  | .B38K4 => 15
  | .B57K6 => 4097
  | .B115K2 => 4098
  | .B230K4 => 4099
  | .B460K8 => 4100
  | .B500K => 4101
  | .B576K => 4102
  | .B921K6 => 4103
  | .B1M => 4104
  | .B1M152 => 4105
  | .B1M5 => 4106
  | .B2M => 4107
  | .B2M5 => 4108
  | .B3M => 4109
  | .B3M5 => 4110
  | .B4M => 4111

/-- Semantics of the derived `FromPrimitive::from_u32` for `BaudRate`:
`some` exactly on the 31 discriminants. -/
def BaudRate.fromU32 : Nat → Option BaudRate
  | 0 => some .B0
  | 1 => some .B50
  | 2 => some .B75
  | 3 => some .B110
  | 4 => some .B134
  | 5 => some .B150
  | 6 => some .B200
  | 7 => some .B300
  | 8 => some .B600
  | 9 => some .B1K2
  | 10 => some .B1K8
  | 11 => some .B2K4
  | 12 => some .B4K8
  | 13 => some .B9K6
  | 14 => some .B19K2
  | 15 => some .B38K4
  | 4097 => some .B57K6
  | 4098 => some .B115K2
  | 4099 => some .B230K4
  | 4100 => some .B460K8
  | 4101 => some .B500K
  | 4102 => some .B576K
  | 4103 => some .B921K6
  | 4104 => some .B1M
  | 4105 => some .B1M152
  | 4106 => some .B1M5
  | 4107 => some .B2M
  | 4108 => some .B2M5
  | 4109 => some .B3M
  | 4110 => some .B3M5
  | 4111 => some .B4M
  | _ => none

/-- Lift an `Except` outcome of the fetch syscall into a getter result
(the `try!(self.fetch())` step shared by the re-fetching getters). -/
def GetResult.ofFetch {α : Type} (fetched : Except IoError Termios)
    (k : Termios → GetResult α) : GetResult α :=
  match fetched with
  | .error e => .err e
  | .ok t => k t

namespace SerialPort

/-- `SerialPort::flow_control` (`src/lib.rs:149-161`): re-fetch the live
structure, then decode — hardware bit first, then the three software bits. -/
def flow_control (fetched : Except IoError Termios) : GetResult FlowControl :=
  GetResult.ofFetch fetched fun termios =>
    if termios.c_cflag &&& CRTSCTS ≠ 0 then
      .ok .HardwareControl
    else if termios.c_iflag &&& (IXANY ||| IXOFF ||| IXON) = 0 then
      .ok .NoFlowControl
    else
      .ok .SoftwareControl

/-- `SerialPort::parity` (`src/lib.rs:164-174`): re-fetch, then decode the
`(PARENB, PARODD)` bit pair — `(true, true)` odd, `(true, false)` even,
`(false, _)` none. -/
def parity (fetched : Except IoError Termios) : GetResult Parity :=
  GetResult.ofFetch fetched fun termios =>
    if termios.c_cflag &&& PARENB ≠ 0 then
      if termios.c_cflag &&& PARODD ≠ 0 then .ok .OddParity else .ok .EvenParity
    else
      .ok .NoParity

/-- `SerialPort::stop_bits` (`src/lib.rs:272-280`): re-fetch, then decode the
`CSTOPB` bit. -/
def stop_bits (fetched : Except IoError Termios) : GetResult StopBits :=
  GetResult.ofFetch fetched fun termios =>
    if termios.c_cflag &&& CSTOPB = 0 then .ok .Stop1 else .ok .Stop2

/-- `SerialPort::baud_rate` (`src/lib.rs:73-90`, Linux variant): re-fetch,
then decode `c_ispeed` and (if that succeeded) `c_ospeed` through
`FromPrimitive::from_u32`; an unrecognized code is a `panic!`, modelled as
`fatal` carrying the offending value. -/
def baud_rate (fetched : Except IoError Termios) : GetResult (BaudRate × BaudRate) :=
  GetResult.ofFetch fetched fun termios =>
    match BaudRate.fromU32 termios.c_ispeed with
    | none => .fatal termios.c_ispeed
    | some input =>
      match BaudRate.fromU32 termios.c_ospeed with
      | none => .fatal termios.c_ospeed
      | some output => .ok (input, output)

/-- Decode step of `SerialPort::data_bits` (`src/lib.rs:123-133`, Linux
variant): `FromPrimitive::from_u32` on the already-masked bits, `panic!`
(modelled as `fatal`) on an unrecognized pattern. -/
def dataBitsDecode (bits : Nat) : GetResult DataBits :=
  match DataBits.fromU32 bits with
  | none => .fatal bits
  | some bits => .ok bits

/-- `SerialPort::data_bits` (`src/lib.rs:123-133`, Linux variant): re-fetch,
mask the control flags with `CSIZE`, decode. -/
def data_bits (fetched : Except IoError Termios) : GetResult DataBits :=
  GetResult.ofFetch fetched fun termios =>
    dataBitsDecode (termios.c_cflag &&& CSIZE)

/-- `SerialPort::blocking_mode` (`src/lib.rs:113-120`): reads the `VMIN` and
`VTIME` control-character slots of the cached structure — no fetch syscall
is performed, so the `IoResult` is always `Ok`. -/
def blocking_mode (sp : SerialPort) : Except IoError BlockingMode :=
  .ok { bytes := sp.termios.c_cc VMIN, deciseconds := sp.termios.c_cc VTIME }

/-- `SerialPort::update` (`src/lib.rs:294-302`): push the cached structure
back with `tcsetattr(fd, TCSANOW, ..)`; the kernel's response to the pushed
structure is the explicit `tcsetattr` argument. -/
def update (cached : Termios) (tcsetattr : Termios → Except IoError Unit) :
    Except IoError Unit :=
  tcsetattr cached

/-- Cache mutation of `SerialPort::set_flow_control` (`src/lib.rs:224-241`):
hardware sets `CRTSCTS` and clears the three software bits; none clears all
four; software clears `CRTSCTS` and sets the three software bits. -/
def set_flow_control_cache (t : Termios) (flow : FlowControl) : Termios :=
  match flow with
  | .HardwareControl =>
    { t with c_cflag := t.c_cflag ||| CRTSCTS
             c_iflag := t.c_iflag &&& compl32 (IXANY ||| IXOFF ||| IXON) }
  | .NoFlowControl =>
    { t with c_cflag := t.c_cflag &&& compl32 CRTSCTS
             c_iflag := t.c_iflag &&& compl32 (IXANY ||| IXOFF ||| IXON) }
  | .SoftwareControl =>
    { t with c_cflag := t.c_cflag &&& compl32 CRTSCTS
             c_iflag := t.c_iflag ||| (IXANY ||| IXOFF ||| IXON) }

/-- `SerialPort::set_flow_control`, mutation followed by the single
push-back; returns the handle state and the call's result. -/
def set_flow_control_run (sp : SerialPort) (flow : FlowControl)
    (tcsetattr : Termios → Except IoError Unit) :
    SerialPort × Except IoError Unit :=
  let sp := { sp with termios := set_flow_control_cache sp.termios flow }
  (sp, update sp.termios tcsetattr)

/-- Cache mutation of `SerialPort::set_parity` (`src/lib.rs:244-257`):
even sets `PARENB` and clears `PARODD`; none clears `PARENB`; odd sets
`PARENB ||| PARODD`. -/
def set_parity_cache (t : Termios) (parity : Parity) : Termios :=
  match parity with
  | .EvenParity =>
    { t with c_cflag := (t.c_cflag ||| PARENB) &&& compl32 PARODD }
  | .NoParity =>
    { t with c_cflag := t.c_cflag &&& compl32 PARENB }
  | .OddParity =>
    { t with c_cflag := t.c_cflag ||| (PARENB ||| PARODD) }

/-- `SerialPort::set_parity`, mutation followed by the single push-back. -/
def set_parity_run (sp : SerialPort) (p : Parity)
    (tcsetattr : Termios → Except IoError Unit) :
    SerialPort × Except IoError Unit :=
  let sp := { sp with termios := set_parity_cache sp.termios p }
  (sp, update sp.termios tcsetattr)

/-- Cache mutation of `SerialPort::set_stop_bits` (`src/lib.rs:260-269`). -/
def set_stop_bits_cache (t : Termios) (bits : StopBits) : Termios :=
  match bits with
  | .Stop1 => { t with c_cflag := t.c_cflag &&& compl32 CSTOPB }
  | .Stop2 => { t with c_cflag := t.c_cflag ||| CSTOPB }

/-- `SerialPort::set_stop_bits`, mutation followed by the single push-back. -/
def set_stop_bits_run (sp : SerialPort) (bits : StopBits)
    (tcsetattr : Termios → Except IoError Unit) :
    SerialPort × Except IoError Unit :=
  let sp := { sp with termios := set_stop_bits_cache sp.termios bits }
  (sp, update sp.termios tcsetattr)

/-- Cache mutation of `SerialPort::set_data_bits` (`src/lib.rs:202-210`,
Linux variant): mask out `CSIZE`, then or in the discriminant. -/
def set_data_bits_cache (t : Termios) (bits : DataBits) : Termios :=
  { t with c_cflag := (t.c_cflag &&& compl32 CSIZE) ||| bits.toU32 }

/-- `SerialPort::set_data_bits`, mutation followed by the single push-back. -/
def set_data_bits_run (sp : SerialPort) (bits : DataBits)
    (tcsetattr : Termios → Except IoError Unit) :
    SerialPort × Except IoError Unit :=
  let sp := { sp with termios := set_data_bits_cache sp.termios bits }
  (sp, update sp.termios tcsetattr)

/-- Cache mutation of `SerialPort::set_blocking_mode` (`src/lib.rs:192-199`):
write the two control-character slots `VMIN` and `VTIME`. -/
def set_blocking_mode_cache (t : Termios) (mode : BlockingMode) : Termios :=
  { t with c_cc :=
      (Function.update (Function.update t.c_cc VMIN mode.bytes) VTIME
        mode.deciseconds) }

/-- `SerialPort::set_blocking_mode`, mutation followed by the single
push-back. -/
def set_blocking_mode_run (sp : SerialPort) (mode : BlockingMode)
    (tcsetattr : Termios → Except IoError Unit) :
    SerialPort × Except IoError Unit :=
  let sp := { sp with termios := set_blocking_mode_cache sp.termios mode }
  (sp, update sp.termios tcsetattr)

end SerialPort

/-- Modelled from the spec: whether a raw code is a valid speed for this
platform — exactly the closed enumeration of Linux speed codes. -/
def validSpeed (code : Nat) : Bool :=
  (BaudRate.fromU32 code).isSome

/-- Modelled from the spec: `cfsetspeed` of the missing `termios` module —
injects a speed code into both speed fields, failing on a code that is not
representable as a valid speed for this platform. -/
def cfsetspeed (t : Termios) (code : Nat) : Option Termios :=
  if validSpeed code then some { t with c_ispeed := code, c_ospeed := code }
  else none

/-- Modelled from the spec: `cfsetispeed` — injects a speed code into the
input speed field only. -/
def cfsetispeed (t : Termios) (code : Nat) : Option Termios :=
  if validSpeed code then some { t with c_ispeed := code } else none

/-- Modelled from the spec: `cfsetospeed` — injects a speed code into the
output speed field only. -/
def cfsetospeed (t : Termios) (code : Nat) : Option Termios :=
  if validSpeed code then some { t with c_ospeed := code } else none

/-- Speed-injection step of `SerialPort::set_baud_rate`
(`src/lib.rs:176-189`): dispatch on the direction to `cfsetspeed`,
`cfsetispeed` or `cfsetospeed`. -/
def set_speed_cache (t : Termios) (direction : Direction) (code : Nat) :
    Option Termios :=
  match direction with
  | .BothDirections => cfsetspeed t code
  | .Input => cfsetispeed t code
  | .Output => cfsetospeed t code

/-- Errno value reported when a `cfset*speed` primitive rejects a speed code
(`EINVAL`; the concrete code never matters because enumeration discriminants
are always valid speeds). -/
def speedErr : IoError := { code := 22 }

/-- `SerialPort::set_baud_rate` (`src/lib.rs:176-189`): run the speed
injection on the cached structure; on its failure return the untouched
handle and an error, otherwise push the mutated cache back. -/
def SerialPort.set_baud_rate_run (sp : SerialPort) (direction : Direction)
    (rate : BaudRate) (tcsetattr : Termios → Except IoError Unit) :
    SerialPort × Except IoError Unit :=
  match set_speed_cache sp.termios direction rate.toU32 with
  | none => (sp, .error speedErr)
  | some t =>
    let sp := { sp with termios := t }
    (sp, SerialPort.update sp.termios tcsetattr)

/-- Modelled from the spec: `force_raw_mode` / `cfmakeraw` of the missing
`termios` module — pure in-memory transformation disabling canonical
processing, echo, signal generation and special-character translation
(standard Linux `cfmakeraw` bit operations). -/
def cfmakeraw (t : Termios) : Termios :=
  { t with
    c_iflag := t.c_iflag &&&
      compl32 (0x01 ||| 0x02 ||| 0x08 ||| 0x20 ||| 0x40 ||| 0x80 ||| 0x100 ||| IXON)
    c_oflag := t.c_oflag &&& compl32 0x01
    c_lflag := t.c_lflag &&& compl32 (0x08 ||| 0x40 ||| 0x02 ||| 0x01 ||| 0x8000)
    c_cflag := (t.c_cflag &&& compl32 (CSIZE ||| PARENB)) ||| CS8 }

/-- Flag bits passed to the `open` syscall (`src/lib.rs:41-46`): the access
mode's flag or-ed with `O_NOCTTY = 0x0100`. -/
def openFlags (access : FileAccess) : Nat :=
  (match access with
   | .Read => 0
   | .ReadWrite => 2
   | .Write => 1) ||| 0x0100

/-- `SerialPort::open` (`src/lib.rs:41-70`): open the device, fetch the
initial control structure, force raw mode on it in memory, and push the
result back; any failing step aborts the whole operation with that step's
system error and no handle.  The three syscall outcomes are explicit
arguments: the `open` result, the `tcgetattr` result for the fresh
descriptor, and the `tcsetattr` response function. -/
def SerialPort.openPort (openResult : Except IoError Int)
    (tcgetattr : Except IoError Termios)
    (tcsetattr : Termios → Except IoError Unit) :
    Except IoError SerialPort :=
  match openResult with
  | .error e => .error e
  | .ok fd =>
    match tcgetattr with
    | .error e => .error e
    | .ok termios =>
      let termios := cfmakeraw termios
      let sp : SerialPort := { fd := fd, termios := termios }
      match SerialPort.update sp.termios tcsetattr with
      | .error e => .error e
      | .ok _ => .ok sp

/-- Concrete zero-initialized control structure (the `Termios::new()`
starting point), used to build closed instantiations. -/
def termios0 : Termios :=
  { c_iflag := 0, c_oflag := 0, c_cflag := 0, c_lflag := 0,
    c_cc := fun _ => 0, c_ispeed := 0, c_ospeed := 0 }

/-- Statement form of the claim that every one of the four enumerated getters
has a fetched bit pattern on which its decode escalates (panics) instead of
producing a value. -/
def decodeEscalationAllFour : Prop :=
  (∃ t : Termios, ∃ v, SerialPort.baud_rate (.ok t) = .fatal v) ∧
  (∃ t : Termios, ∃ v, SerialPort.data_bits (.ok t) = .fatal v) ∧
  (∃ t : Termios, ∃ v, SerialPort.flow_control (.ok t) = .fatal v) ∧
  (∃ t : Termios, ∃ v, SerialPort.parity (.ok t) = .fatal v)

/-! Bit-algebra helper lemmas about `u32`-style masking, used to reason
about the set/get pairs below. -/

/-- A bit set in a value below `2 ^ 32` sits below position 32. -/
theorem testBit_lt_32 {m i : Nat} (hm : m < 2 ^ 32)
    (h : Nat.testBit m i = true) : i < 32 := by
  by_contra hge
  have hle : 2 ^ 32 ≤ 2 ^ i :=
    Nat.pow_le_pow_right (by norm_num) (le_of_not_lt hge)
  rw [Nat.testBit_lt_two_pow (lt_of_lt_of_le hm hle)] at h
  exact Bool.false_ne_true h

/-- Masking after or-ing in a superset of the mask yields the mask. -/
theorem and_or_of_subset (a m k : Nat) (h : k &&& m = k) :
    (a ||| m) &&& k = k := by
  apply Nat.eq_of_testBit_eq
  intro i
  have hbit := congrArg (fun x => Nat.testBit x i) h
  simp only [Nat.testBit_and] at hbit
  simp only [Nat.testBit_and, Nat.testBit_or]
  cases ha : Nat.testBit a i <;> cases hm2 : Nat.testBit m i <;>
    cases hk : Nat.testBit k i <;> simp_all

/-- Clearing a `u32` mask with its Rust complement really clears it. -/
theorem and_compl32_and_self (a m : Nat) (hm : m < 2 ^ 32) :
    (a &&& compl32 m) &&& m = 0 := by
  apply Nat.eq_of_testBit_eq
  intro i
  simp only [compl32, Nat.testBit_and, Nat.testBit_xor,
    Nat.testBit_two_pow_sub_one, Nat.zero_testBit]
  cases hmi : Nat.testBit m i with
  | false => simp
  | true => simp [testBit_lt_32 hm hmi]

/-- Clearing one `u32` mask leaves a disjoint mask's bits unchanged. -/
theorem and_compl32_and_other (a m k : Nat) (hmk : m &&& k = 0)
    (hk : k < 2 ^ 32) : (a &&& compl32 m) &&& k = a &&& k := by
  apply Nat.eq_of_testBit_eq
  intro i
  have hbit := congrArg (fun x => Nat.testBit x i) hmk
  simp only [Nat.testBit_and, Nat.zero_testBit] at hbit
  simp only [compl32, Nat.testBit_and, Nat.testBit_xor,
    Nat.testBit_two_pow_sub_one]
  cases hki : Nat.testBit k i with
  | false => simp
  | true =>
    have hi : i < 32 := testBit_lt_32 hk hki
    have hmi : Nat.testBit m i = false := by
      rcases hb : Nat.testBit m i with _ | _
      · rfl
      · rw [hb, hki] at hbit; simp at hbit
    simp [hi, hmi]

/-- Or-ing in one mask leaves a disjoint mask's bits unchanged. -/
theorem and_or_other (a m k : Nat) (hmk : m &&& k = 0) :
    (a ||| m) &&& k = a &&& k := by
  apply Nat.eq_of_testBit_eq
  intro i
  have hbit := congrArg (fun x => Nat.testBit x i) hmk
  simp only [Nat.testBit_and, Nat.zero_testBit] at hbit
  simp only [Nat.testBit_and, Nat.testBit_or]
  cases ha : Nat.testBit a i <;> cases hm2 : Nat.testBit m i <;>
    cases hk : Nat.testBit k i <;> simp_all

/-- The `CSIZE`-masked control flags can only take the four character-size
field values `CS5`, `CS6`, `CS7`, `CS8`. -/
theorem and_csize_cases (x : Nat) :
    x &&& CSIZE = 0 ∨ x &&& CSIZE = 16 ∨ x &&& CSIZE = 32 ∨ x &&& CSIZE = 48 := by
  have hC : CSIZE = 2 ^ 4 ||| 2 ^ 5 := by decide
  rw [hC, Nat.and_or_distrib_left, Nat.and_two_pow, Nat.and_two_pow]
  cases x.testBit 4 <;> cases x.testBit 5 <;> simp

/-- The enumeration discriminants decode back to themselves: the derived
`FromPrimitive` is a left inverse of the `repr(u32)` discriminant map. -/
theorem BaudRate.fromU32_toU32 (r : BaudRate) : BaudRate.fromU32 r.toU32 = some r := by
  cases r <;> rfl

/-- Writing the blocking mode leaves the requested byte count in the `VMIN`
control-character slot. -/
theorem set_blocking_mode_cache_vmin (t : Termios) (mode : BlockingMode) :
    (SerialPort.set_blocking_mode_cache t mode).c_cc VMIN = mode.bytes := by
  show Function.update (Function.update t.c_cc VMIN mode.bytes) VTIME
    mode.deciseconds VMIN = mode.bytes
  rw [Function.update_noteq (by decide), Function.update_same]

/-- Writing the blocking mode leaves the requested timeout in the `VTIME`
control-character slot. -/
theorem set_blocking_mode_cache_vtime (t : Termios) (mode : BlockingMode) :
    (SerialPort.set_blocking_mode_cache t mode).c_cc VTIME = mode.deciseconds := by
  show Function.update (Function.update t.c_cc VMIN mode.bytes) VTIME
    mode.deciseconds VTIME = mode.deciseconds
  rw [Function.update_same]

/-- C1: for every fetched control structure, `flow_control` decodes with the
documented precedence — if the hardware-control bit `CRTSCTS` is set in the
control flags the result is hardware control; otherwise, if none of the
three software-control bits `IXANY`, `IXOFF`, `IXON` is set in the input
flags the result is no flow control; otherwise software control. -/
theorem flow_control_decode_precedence (t : Termios) :
    (t.c_cflag &&& CRTSCTS ≠ 0 →
      SerialPort.flow_control (.ok t) = .ok .HardwareControl) ∧
    (t.c_cflag &&& CRTSCTS = 0 →
      t.c_iflag &&& (IXANY ||| IXOFF ||| IXON) = 0 →
      SerialPort.flow_control (.ok t) = .ok .NoFlowControl) ∧
    (t.c_cflag &&& CRTSCTS = 0 →
      t.c_iflag &&& (IXANY ||| IXOFF ||| IXON) ≠ 0 →
      SerialPort.flow_control (.ok t) = .ok .SoftwareControl) := by
  refine ⟨fun h => ?_, fun h hsw => ?_, fun h hsw => ?_⟩ <;>
    simp [SerialPort.flow_control, GetResult.ofFetch, h, *]

/-- Closed instantiation of the flow-control decode precedence at three
concrete fetched structures, one per branch (the first has hardware and
software bits set at once: hardware wins). -/
theorem flow_control_decode_precedence_witness :
    SerialPort.flow_control
      (.ok { termios0 with c_cflag := CRTSCTS, c_iflag := IXON })
      = .ok .HardwareControl ∧
    SerialPort.flow_control (.ok termios0) = .ok .NoFlowControl ∧
    SerialPort.flow_control (.ok { termios0 with c_iflag := IXON })
      = .ok .SoftwareControl :=
  ⟨(flow_control_decode_precedence _).1 (by decide),
   (flow_control_decode_precedence _).2.1 (by decide) (by decide),
   (flow_control_decode_precedence _).2.2 (by decide) (by decide)⟩

/-- C2: for every flow-control value and every starting cached structure,
the `set_flow_control` cache mutation followed by the `flow_control` decode
yields that value back (so in particular requesting hardware control on a
structure whose software bits were set decodes as hardware control). -/
theorem set_flow_control_roundtrip (t : Termios) (f : FlowControl) :
    SerialPort.flow_control (.ok (SerialPort.set_flow_control_cache t f))
      = .ok f := by
  cases f with
  | HardwareControl =>
    have h1 : (t.c_cflag ||| CRTSCTS) &&& CRTSCTS ≠ 0 := by
      rw [and_or_of_subset _ _ _ (Nat.and_self _)]; decide
    simp [SerialPort.flow_control, SerialPort.set_flow_control_cache,
      GetResult.ofFetch, h1]
  | NoFlowControl =>
    have h1 : (t.c_cflag &&& compl32 CRTSCTS) &&& CRTSCTS = 0 :=
      and_compl32_and_self _ _ (by decide)
    have h2 : (t.c_iflag &&& compl32 (IXANY ||| IXOFF ||| IXON)) &&&
        (IXANY ||| IXOFF ||| IXON) = 0 :=
      and_compl32_and_self _ _ (by decide)
    simp [SerialPort.flow_control, SerialPort.set_flow_control_cache,
      GetResult.ofFetch, h1, h2]
  | SoftwareControl =>
    have h1 : (t.c_cflag &&& compl32 CRTSCTS) &&& CRTSCTS = 0 :=
      and_compl32_and_self _ _ (by decide)
    have h2 : (t.c_iflag ||| (IXANY ||| IXOFF ||| IXON)) &&&
        (IXANY ||| IXOFF ||| IXON) ≠ 0 := by
      rw [and_or_of_subset _ _ _ (Nat.and_self _)]; decide
    simp [SerialPort.flow_control, SerialPort.set_flow_control_cache,
      GetResult.ofFetch, h1, h2]

/-- C7: for every parity value and every starting cached structure, the
`set_parity` cache mutation followed by the `parity` decode yields that
value back. -/
theorem set_parity_roundtrip (t : Termios) (p : Parity) :
    SerialPort.parity (.ok (SerialPort.set_parity_cache t p)) = .ok p := by
  cases p with
  | EvenParity =>
    have h1 : ((t.c_cflag ||| PARENB) &&& compl32 PARODD) &&& PARENB ≠ 0 := by
      rw [and_compl32_and_other _ _ _ (by decide) (by decide),
        and_or_of_subset _ _ _ (Nat.and_self _)]
      decide
    have h2 : ((t.c_cflag ||| PARENB) &&& compl32 PARODD) &&& PARODD = 0 :=
      and_compl32_and_self _ _ (by decide)
    simp [SerialPort.parity, SerialPort.set_parity_cache,
      GetResult.ofFetch, h1, h2]
  | NoParity =>
    have h1 : (t.c_cflag &&& compl32 PARENB) &&& PARENB = 0 :=
      and_compl32_and_self _ _ (by decide)
    simp [SerialPort.parity, SerialPort.set_parity_cache,
      GetResult.ofFetch, h1]
  | OddParity =>
    have h1 : (t.c_cflag ||| (PARENB ||| PARODD)) &&& PARENB ≠ 0 := by
      rw [and_or_of_subset _ _ _ (by decide)]; decide
    have h2 : (t.c_cflag ||| (PARENB ||| PARODD)) &&& PARODD ≠ 0 := by
      rw [and_or_of_subset _ _ _ (by decide)]; decide
    simp [SerialPort.parity, SerialPort.set_parity_cache,
      GetResult.ofFetch, h1, h2]

/-- C8: after any `set_flow_control` cache mutation, regardless of the prior
state, the cached structure never holds the hardware-control bit together
with any of the three software-control bits: one of the two groups is
always fully cleared. -/
theorem set_flow_control_exclusive (t : Termios) (f : FlowControl) :
    (SerialPort.set_flow_control_cache t f).c_cflag &&& CRTSCTS = 0 ∨
    (SerialPort.set_flow_control_cache t f).c_iflag &&&
      (IXANY ||| IXOFF ||| IXON) = 0 := by
  cases f with
  | HardwareControl => exact Or.inr (and_compl32_and_self _ _ (by decide))
  | NoFlowControl => exact Or.inl (and_compl32_and_self _ _ (by decide))
  | SoftwareControl => exact Or.inl (and_compl32_and_self _ _ (by decide))

/-- C3 (counterexample): the claim that all four enumerated getters have a
fetched bit pattern on which decode escalates is false — the data-bits
getter masks the control flags with `CSIZE` first, and every masked value
is one of the four recognized character-size codes, so its escalation
branch is unreachable for every fetched structure. -/
theorem decode_escalation_not_all_four : ¬ decodeEscalationAllFour := by
  intro h
  obtain ⟨t, v, hv⟩ := h.2.1
  have hshow : SerialPort.data_bits (.ok t)
      = SerialPort.dataBitsDecode (t.c_cflag &&& CSIZE) := rfl
  rcases and_csize_cases t.c_cflag with hc | hc | hc | hc <;>
    (rw [hshow, hc] at hv;
     simp [SerialPort.dataBitsDecode, DataBits.fromU32] at hv)

/-- C3 (amended): decoding a bit pattern outside the closed enumeration is
escalated as a panic, not an ordinary value, for the baud-rate getter —
there is a fetched structure on which `baud_rate` escalates; for the other
three getters no such fetched structure exists: the `CSIZE`-masked
data-bits field always lies inside its enumeration, and the flow-control
and parity decoders are total, so each returns an ordinary value on every
fetched structure. -/
theorem decode_escalation_baud_only :
    (∃ t : Termios, ∃ v, SerialPort.baud_rate (.ok t) = .fatal v) ∧
    (∀ t : Termios, ∃ d, SerialPort.data_bits (.ok t) = .ok d) ∧
    (∀ t : Termios, ∃ f, SerialPort.flow_control (.ok t) = .ok f) ∧
    (∀ t : Termios, ∃ p, SerialPort.parity (.ok t) = .ok p) := by
  refine ⟨⟨{ termios0 with c_ispeed := 16 }, 16, by decide⟩,
    fun t => ?_, fun t => ?_, fun t => ?_⟩
  · have hshow : SerialPort.data_bits (.ok t)
        = SerialPort.dataBitsDecode (t.c_cflag &&& CSIZE) := rfl
    rcases and_csize_cases t.c_cflag with hc | hc | hc | hc
    · exact ⟨.Data5, by rw [hshow, hc]; decide⟩
    · exact ⟨.Data6, by rw [hshow, hc]; decide⟩
    · exact ⟨.Data7, by rw [hshow, hc]; decide⟩
    · exact ⟨.Data8, by rw [hshow, hc]; decide⟩
  · simp only [SerialPort.flow_control, GetResult.ofFetch]
    split
    · exact ⟨_, rfl⟩
    · split
      · exact ⟨_, rfl⟩
      · exact ⟨_, rfl⟩
  · simp only [SerialPort.parity, GetResult.ofFetch]
    split
    · split
      · exact ⟨_, rfl⟩
      · exact ⟨_, rfl⟩
    · exact ⟨_, rfl⟩

/-- C4: `open` is all-or-nothing — a failure of the device-open syscall, of
the initial fetch, or of the final push-back of the raw-mode structure makes
the whole operation return that system error and no handle; on success the
returned handle's cached structure is the fetched structure with raw mode
forced. -/
theorem open_all_or_nothing :
    (∀ (e : IoError) (tcget : Except IoError Termios)
        (tcset : Termios → Except IoError Unit),
      SerialPort.openPort (.error e) tcget tcset = .error e) ∧
    (∀ (fd : Int) (e : IoError) (tcset : Termios → Except IoError Unit),
      SerialPort.openPort (.ok fd) (.error e) tcset = .error e) ∧
    (∀ (fd : Int) (t : Termios) (e : IoError)
        (tcset : Termios → Except IoError Unit),
      tcset (cfmakeraw t) = .error e →
      SerialPort.openPort (.ok fd) (.ok t) tcset = .error e) ∧
    (∀ (fd : Int) (t : Termios) (tcset : Termios → Except IoError Unit),
      tcset (cfmakeraw t) = .ok () →
      SerialPort.openPort (.ok fd) (.ok t) tcset
        = .ok { fd := fd, termios := cfmakeraw t }) := by
  refine ⟨fun _ _ _ => rfl, fun _ _ _ => rfl,
    fun fd t e tcset h => ?_, fun fd t tcset h => ?_⟩ <;>
    simp [SerialPort.openPort, SerialPort.update, h]

/-- Closed instantiation of the `open` protocol: each of the three syscall
failures aborts the whole operation with that error, and the all-success
run returns the handle caching the raw-mode structure. -/
theorem open_all_or_nothing_witness :
    SerialPort.openPort (.error ⟨2⟩) (.ok termios0) (fun _ => .ok ())
      = .error ⟨2⟩ ∧
    SerialPort.openPort (.ok 3) (.error ⟨5⟩) (fun _ => .ok ()) = .error ⟨5⟩ ∧
    SerialPort.openPort (.ok 3) (.ok termios0) (fun _ => .error ⟨9⟩)
      = .error ⟨9⟩ ∧
    SerialPort.openPort (.ok 3) (.ok termios0) (fun _ => .ok ())
      = .ok { fd := 3, termios := cfmakeraw termios0 } :=
  ⟨open_all_or_nothing.1 ⟨2⟩ _ _, open_all_or_nothing.2.1 3 ⟨5⟩ _,
   open_all_or_nothing.2.2.1 3 termios0 ⟨9⟩ _ rfl,
   open_all_or_nothing.2.2.2 3 termios0 _ rfl⟩

/-- C5: the baud-rate and data-bits decoders treat a field value outside
their closed enumerations as a panic (the `fatal` outcome, distinct from
the recoverable `err` outcome), and under the precondition that the fetched
speed fields, respectively the `CSIZE`-masked control flags, decode inside
the enumerations, the fatal branch is not taken and each getter returns the
decoded value. -/
theorem baud_data_fatal_or_ok :
    (∀ t : Termios, BaudRate.fromU32 t.c_ispeed = none →
      SerialPort.baud_rate (.ok t) = .fatal t.c_ispeed) ∧
    (∀ (t : Termios) (i : BaudRate), BaudRate.fromU32 t.c_ispeed = some i →
      BaudRate.fromU32 t.c_ospeed = none →
      SerialPort.baud_rate (.ok t) = .fatal t.c_ospeed) ∧
    (∀ bits : Nat, DataBits.fromU32 bits = none →
      SerialPort.dataBitsDecode bits = .fatal bits) ∧
    (∀ (t : Termios) (i o : BaudRate), BaudRate.fromU32 t.c_ispeed = some i →
      BaudRate.fromU32 t.c_ospeed = some o →
      SerialPort.baud_rate (.ok t) = .ok (i, o)) ∧
    (∀ (t : Termios) (d : DataBits),
      DataBits.fromU32 (t.c_cflag &&& CSIZE) = some d →
      SerialPort.data_bits (.ok t) = .ok d) := by
  refine ⟨fun t h => ?_, fun t i h1 h2 => ?_, fun bits h => ?_,
    fun t i o h1 h2 => ?_, fun t d h => ?_⟩ <;>
    simp [SerialPort.baud_rate, SerialPort.data_bits,
      SerialPort.dataBitsDecode, GetResult.ofFetch, *]

/-- Closed instantiation of the baud-rate and data-bits decode behavior:
speed code 16 is outside the enumeration and panics (on either field),
decode input 1 is outside the data-bits enumeration and panics, and
in-enumeration fields decode to `Ok` values. -/
theorem baud_data_fatal_or_ok_witness :
    SerialPort.baud_rate (.ok { termios0 with c_ispeed := 16 }) = .fatal 16 ∧
    SerialPort.baud_rate (.ok { termios0 with c_ospeed := 16 }) = .fatal 16 ∧
    SerialPort.dataBitsDecode 1 = .fatal 1 ∧
    SerialPort.baud_rate (.ok { termios0 with c_ispeed := 13, c_ospeed := 15 })
      = .ok (.B9K6, .B38K4) ∧
    SerialPort.data_bits (.ok { termios0 with c_cflag := 0x33 })
      = .ok .Data8 :=
  ⟨baud_data_fatal_or_ok.1 _ (by decide),
   baud_data_fatal_or_ok.2.1 _ .B0 (by decide) (by decide),
   baud_data_fatal_or_ok.2.2.1 1 (by decide),
   baud_data_fatal_or_ok.2.2.2.1 _ .B9K6 .B38K4 (by decide) (by decide),
   baud_data_fatal_or_ok.2.2.2.2 _ .Data8 (by decide)⟩

/-- C6: for every setter, when the push-back syscall fails the call returns
that error while the cached control structure retains the newly written
value — the mutation is not rolled back, and the surfaced error is exactly
the single push-back's error (no retry can have happened). -/
theorem setter_failure_keeps_cache (sp : SerialPort) (e : IoError) :
    (∀ (direction : Direction) (rate : BaudRate), ∃ t,
      set_speed_cache sp.termios direction rate.toU32 = some t ∧
      sp.set_baud_rate_run direction rate (fun _ => .error e)
        = ({ sp with termios := t }, .error e)) ∧
    (∀ bits : DataBits, sp.set_data_bits_run bits (fun _ => .error e)
      = ({ sp with termios := SerialPort.set_data_bits_cache sp.termios bits },
         .error e)) ∧
    (∀ bits : StopBits, sp.set_stop_bits_run bits (fun _ => .error e)
      = ({ sp with termios := SerialPort.set_stop_bits_cache sp.termios bits },
         .error e)) ∧
    (∀ p : Parity, sp.set_parity_run p (fun _ => .error e)
      = ({ sp with termios := SerialPort.set_parity_cache sp.termios p },
         .error e)) ∧
    (∀ f : FlowControl, sp.set_flow_control_run f (fun _ => .error e)
      = ({ sp with termios := SerialPort.set_flow_control_cache sp.termios f },
         .error e)) ∧
    (∀ mode : BlockingMode, sp.set_blocking_mode_run mode (fun _ => .error e)
      = ({ sp with
            termios := SerialPort.set_blocking_mode_cache sp.termios mode },
         .error e)) := by
  refine ⟨fun direction rate => ?_, fun _ => rfl, fun _ => rfl, fun _ => rfl,
    fun _ => rfl, fun _ => rfl⟩
  have hv : validSpeed rate.toU32 = true := by
    simp [validSpeed, BaudRate.fromU32_toU32]
  cases direction with
  | BothDirections =>
    refine ⟨{ sp.termios with c_ispeed := rate.toU32, c_ospeed := rate.toU32 },
      ?_, ?_⟩ <;>
      simp [SerialPort.set_baud_rate_run, set_speed_cache, cfsetspeed, hv,
        SerialPort.update]
  | Input =>
    refine ⟨{ sp.termios with c_ispeed := rate.toU32 }, ?_, ?_⟩ <;>
      simp [SerialPort.set_baud_rate_run, set_speed_cache, cfsetispeed, hv,
        SerialPort.update]
  | Output =>
    refine ⟨{ sp.termios with c_ospeed := rate.toU32 }, ?_, ?_⟩ <;>
      simp [SerialPort.set_baud_rate_run, set_speed_cache, cfsetospeed, hv,
        SerialPort.update]

/-- C9: `blocking_mode` reads the `VMIN` and `VTIME` control-character slots
of the cached structure directly (no re-fetch is involved in its result),
and for every representable `(bytes, deciseconds)` pair the
`set_blocking_mode` cache write followed by `blocking_mode` returns exactly
that pair. -/
theorem blocking_mode_roundtrip :
    (∀ sp : SerialPort, sp.blocking_mode
      = .ok { bytes := sp.termios.c_cc VMIN,
              deciseconds := sp.termios.c_cc VTIME }) ∧
    (∀ (sp : SerialPort) (mode : BlockingMode),
      mode.bytes < 256 → mode.deciseconds < 256 →
      SerialPort.blocking_mode
        { sp with termios := SerialPort.set_blocking_mode_cache sp.termios mode }
        = .ok mode) := by
  refine ⟨fun sp => rfl, fun sp mode _ _ => ?_⟩
  simp [SerialPort.blocking_mode, set_blocking_mode_cache_vmin,
    set_blocking_mode_cache_vtime]

/-- Closed instantiation of the blocking-mode round trip at the pair
`(1 byte, 2 deciseconds)`. -/
theorem blocking_mode_roundtrip_witness :
    SerialPort.blocking_mode
      { fd := 3,
        termios := SerialPort.set_blocking_mode_cache termios0
          { bytes := 1, deciseconds := 2 } }
      = .ok { bytes := 1, deciseconds := 2 } :=
  blocking_mode_roundtrip.2 { fd := 3, termios := termios0 }
    { bytes := 1, deciseconds := 2 } (by decide) (by decide)

/-- C10: `blocking_mode` never returns an error — it performs no syscall and
always yields `Ok` with the cached pair — and consequently the
`set_blocking_mode` / `blocking_mode` round trip still holds when the
setter's push-back fails: the call surfaces the push-back error, yet the
getter on the resulting handle returns the requested pair. -/
theorem blocking_mode_infallible :
    (∀ sp : SerialPort, ∃ mode, sp.blocking_mode = .ok mode) ∧
    (∀ (sp : SerialPort) (mode : BlockingMode) (e : IoError),
      (sp.set_blocking_mode_run mode (fun _ => .error e)).2 = .error e ∧
      (sp.set_blocking_mode_run mode (fun _ => .error e)).1.blocking_mode
        = .ok mode) := by
  refine ⟨fun sp => ⟨_, rfl⟩, fun sp mode e => ⟨rfl, ?_⟩⟩
  simp [SerialPort.set_blocking_mode_run, SerialPort.blocking_mode,
    set_blocking_mode_cache_vmin, set_blocking_mode_cache_vtime]

end Serial
